import Mathlib

/-
Verification of the nano-banana-mcp tool server (src/index.ts) against its
natural-language specification.  The definitions below are a shallow
embedding of the dispatch, validation, image-resolution, filename and
batch/variation logic of the source file; external collaborators (the
Gemini client, Node fs and path modules, the MCP transport) are
parametrized as function arguments or modelled as small data types.
JS numbers appearing in validation ranges are modelled as rationals.
-/

namespace NanoBanana

/-- JS truthiness of an optional string argument: undefined and the empty
string are falsy (used by the zod refine checks and the handler branches). -/
def truthy : Option String → Bool
  | some s => !s.isEmpty
  | none => false

/-- GenerationConfig record (GenerationConfigSchema, lines 16-21).  All
fields optional; values are JS numbers, modelled as rationals. -/
structure GenerationConfig where
  temperature : Option ℚ
  topP : Option ℚ
  topK : Option ℚ
  maxOutputTokens : Option ℚ
deriving DecidableEq

/-- Validation performed by GenerationConfigSchema (lines 16-21):
temperature in 0..2, topP in 0..1, topK in 1..40.  maxOutputTokens is
z.number().optional() with no range or integrality constraint (line 20). -/
def validConfig (c : GenerationConfig) : Bool :=
  (match c.temperature with
   | none => true
   | some t => decide (0 ≤ t) && decide (t ≤ 2)) &&
  (match c.topP with
   | none => true
   | some p => decide (0 ≤ p) && decide (p ≤ 1)) &&
  (match c.topK with
   | none => true
   | some k => decide (1 ≤ k) && decide (k ≤ 40))

/-- Modelled from the spec: GenerationConfig validation as stated there,
with maxOutputTokens required to be a positive integer when present. -/
def specValidConfig (c : GenerationConfig) : Bool :=
  (match c.temperature with
   | none => true
   | some t => decide (0 ≤ t) && decide (t ≤ 2)) &&
  (match c.topP with
   | none => true
   | some p => decide (0 ≤ p) && decide (p ≤ 1)) &&
  (match c.topK with
   | none => true
   | some k => decide (1 ≤ k) && decide (k ≤ 40)) &&
  (match c.maxOutputTokens with
   | none => true
   | some m => decide (0 < m) && decide (m.den = 1))

/-- Validity of an optional config argument: a nested GenerationConfig is
validated when present (zod validates the nested schema before refine). -/
def configOk : Option GenerationConfig → Bool
  | some c => validConfig c
  | none => true

/-- variationStrength enum (line 81). -/
inductive VariationStrength
  | subtle
  | moderate
  | strong
deriving DecidableEq

/-- Temperature defaults per variation strength (lines 916 and 922):
subtle 0.3, moderate 0.7, strong 1.2. -/
def strengthTemperature : VariationStrength → ℚ
  | .subtle => 3/10
  | .moderate => 7/10
  | .strong => 12/10

/-- Outbound temperature computed in handleGenerateVariations
(lines 915-924): with a config present the code sends
config.temperature ?? strength-default; with no config it sends the
strength default. -/
def variationsOutTemperature (config : Option GenerationConfig)
    (s : VariationStrength) : ℚ :=
  match config with
  | some c =>
    match c.temperature with
    | some t => t
    | none => strengthTemperature s
  | none => strengthTemperature s

/-- Model of the JS String.prototype.toLowerCase call applied to
path.extname results (line 503 and its copies): each character is
lowercased. -/
def lowerStr (s : String) : String := String.mk (s.data.map Char.toLower)

/-- The extension-to-MIME switch statement duplicated in handleEditImage
(lines 504-520), handleAnalyzeImage (lines 612-628) and
handleMultiImageEdit (lines 692-708); input is the already lowercased
extension. -/
def mimeSwitch (ext : String) : String :=
  if ext = ".png" then "image/png"
  else if ext = ".jpg" then "image/jpeg"
  else if ext = ".jpeg" then "image/jpeg"
  else if ext = ".gif" then "image/gif"
  else if ext = ".webp" then "image/webp"
  else "image/png"

/-- MIME type derived in handleEditImage from path.extname(imagePath)
followed by toLowerCase (line 503) and the switch (lines 504-520). -/
def editImageMime (extname : String) : String :=
  mimeSwitch (lowerStr extname)

/-- MIME type derived in handleAnalyzeImage (lines 611-628). -/
def analyzeImageMime (extname : String) : String :=
  mimeSwitch (lowerStr extname)

/-- MIME type derived per element in handleMultiImageEdit
(lines 691-708). -/
def multiImageMime (extname : String) : String :=
  mimeSwitch (lowerStr extname)

/-- MIME type derived in handleGenerateVariations (lines 894-895): only
.jpg and .jpeg map to image/jpeg, everything else to image/png. -/
def variationsMime (extname : String) : String :=
  if lowerStr extname = ".jpg" ∨ lowerStr extname = ".jpeg" then "image/jpeg"
  else "image/png"

/-- MIME type declared by handleCompareImages for both input images
(lines 1033-1045): hardcoded image/png, the path extension is never
consulted. -/
def compareImagesMime : String := "image/png"

/-- Modelled from the spec: the exact extension-to-MIME mapping
(.png to image/png, .jpg and .jpeg to image/jpeg, .gif to image/gif,
.webp to image/webp, anything else image/png), on a lowercased
extension. -/
def specMimeMap (ext : String) : String :=
  if ext = ".png" then "image/png"
  else if ext = ".jpg" ∨ ext = ".jpeg" then "image/jpeg"
  else if ext = ".gif" then "image/gif"
  else if ext = ".webp" then "image/webp"
  else "image/png"

/-- Modelled from the spec: the mapping applied case-insensitively to the
path's extension. -/
def specMimeFromExtension (extname : String) : String :=
  specMimeMap (lowerStr extname)

/-- File extension chosen from the response MIME type in
handleGenerateImage (lines 461-463). -/
def generateImageExtension (mime : String) : String :=
  if mime = "image/png" then ".png"
  else if mime = "image/jpeg" then ".jpg"
  else ".png"

/-- File extension chosen from the response MIME type in handleEditImage
(lines 569-571). -/
def editImageExtension (mime : String) : String :=
  if mime = "image/png" then ".png"
  else if mime = "image/jpeg" then ".jpg"
  else ".png"

/-- File extension chosen from the response MIME type in
handleMultiImageEdit (lines 758-760). -/
def multiImageExtension (mime : String) : String :=
  if mime = "image/png" then ".png"
  else if mime = "image/jpeg" then ".jpg"
  else ".png"

/-- Modelled from the spec: the saved extension is ".jpg" exactly when
the response MIME type is exactly "image/jpeg", otherwise ".png". -/
def specExtensionFromMime (mime : String) : String :=
  if mime = "image/jpeg" then ".jpg" else ".png"

/-- Model of Node path.join for a plain directory and filename
(normalization of "." segments is not modelled). -/
def pathJoin (dir file : String) : String := dir ++ "/" ++ file

/-- Filename built in handleGenerateImage (line 467). -/
def generatedImageFilename (ts mime : String) : String :=
  "generated-image-" ++ ts ++ generateImageExtension mime

/-- Filename built in handleEditImage (line 575). -/
def editedImageFilename (ts mime : String) : String :=
  "edited-image-" ++ ts ++ editImageExtension mime

/-- Filename built in handleMultiImageEdit (line 764). -/
def multiImageResultFilename (ts mime : String) : String :=
  "multi-image-result-" ++ ts ++ multiImageExtension mime

/-- Filename built in handleBatchGenerate (lines 813 and 842): the
extension is the literal ".png" regardless of the response MIME type.
The index is zero-based here; the code writes index+1. -/
def batchFilename (i : Nat) (ts : String) : String :=
  "batch-" ++ toString (i + 1) ++ "-" ++ ts ++ ".png"

/-- Filename built in handleGenerateVariations (line 939): extension
hardcoded ".png". -/
def variationFilename (i : Nat) (ts : String) : String :=
  "variation-" ++ toString (i + 1) ++ "-" ++ ts ++ ".png"

/-- Filename built in handleGenerateWithTemplate (line 1006): extension
hardcoded ".png". -/
def templateFilename (templateName ts : String) : String :=
  templateName ++ "-" ++ ts ++ ".png"

/-- One content part of a model response candidate: either a text part or
a part carrying inlineData with a payload and a MIME type. -/
inductive Part
  | text (s : String)
  | inlineData (data mime : String)
deriving DecidableEq

/-- The predicate of the scans at lines 451, 559, 748, 810, 839 and 936:
the JS test is whether the key inlineData is present in the part. -/
def hasInline : Part → Bool
  | .inlineData _ _ => true
  | .text _ => false

/-- MIME type read off a found image part (inlineData.mimeType). -/
def partMime : Part → String
  | .inlineData _ m => m
  | .text _ => ""

/-- A response candidate; content.parts may be absent (modelled none) or
present, possibly empty. -/
structure Candidate where
  parts : Option (List Part)
deriving DecidableEq

/-- The external model response: an optional candidate list and the
optional aggregated text used by the analysis tools. -/
structure ModelResponse where
  candidates : Option (List Candidate)
  text : Option String
deriving DecidableEq

/-- First candidate's parts, models the JS optional chain
result.response.candidates?.[0]?.content.parts: undefined when the
candidate list is missing or empty or its head has no parts. -/
def candidatesParts (r : ModelResponse) : Option (List Part) :=
  match r.candidates with
  | some (c :: _) => c.parts
  | _ => none

/-- Outcome of one call to the external model: a response, or a thrown
error with a message. -/
inductive CallResult
  | ok (r : ModelResponse)
  | err (msg : String)
deriving DecidableEq

/-- Whether one external call yields a savable image: the call resolved,
the first candidate has parts, and some part carries inlineData. -/
def savesImage : CallResult → Bool
  | .err _ => false
  | .ok r =>
    match candidatesParts r with
    | none => false
    | some parts => (parts.find? hasInline).isSome

/-- Side effects a handler can perform, in program order. -/
inductive Effect
  | fsRead (p : String)
  | fsMkdir (dir : String)
  | fsWrite (p : String)
  | netCall
deriving DecidableEq

/-- A resolved image: base64 payload plus declared MIME type. -/
structure ResolvedImage where
  data : String
  mimeType : String
deriving DecidableEq

/-- One text content block of a tool-call result. -/
structure TextBlock where
  text : String
deriving DecidableEq

/-- Structured tool-call result returned to the transport.  A success
return in the source has no isError key, which reads as false. -/
structure ToolResult where
  content : List TextBlock
  isError : Bool
deriving DecidableEq

/-- What a routed handler does: return a result or throw with a message. -/
inductive HandlerOutcome
  | ok (r : ToolResult)
  | raise (msg : String)

/-- Image resolution shared by handleEditImage (lines 494-523),
handleAnalyzeImage (lines 602-631) and each handleMultiImageEdit element
(lines 682-711), parametrized by the tool's extension-to-MIME function:
inline data is used verbatim with PNG assumed; otherwise the file at the
path is read (the read effect is recorded, the base64 payload or a read
error comes from the readFile parameter, the extension from the extname
parameter modelling Node path.extname). -/
def resolveImage (mimeOf : String → String) (imageData imagePath : Option String)
    (readFile : String → Except String String) (extname : String → String) :
    Except String ResolvedImage × List Effect :=
  if truthy imageData then
    (.ok ⟨imageData.getD "", "image/png"⟩, [])
  else if truthy imagePath then
    match readFile (imagePath.getD "") with
    | .error e => (.error e, [.fsRead (imagePath.getD "")])
    | .ok b64 =>
      (.ok ⟨b64, mimeOf (extname (imagePath.getD ""))⟩,
        [.fsRead (imagePath.getD "")])
  else
    (.error "Either imageData or imagePath must be provided", [])

/-- One image argument of multi_image_edit (lines 50-54). -/
structure MultiImageItem where
  imageData : Option String
  imagePath : Option String
  description : Option String
deriving DecidableEq

/-- The per-element resolution loop of handleMultiImageEdit
(lines 676-719); i is the zero-based index of the first element, used in
the unreachable missing-image message (line 710).  A read failure aborts
the whole handler, as fs.readFile rejects propagate. -/
def resolveMultiImages (i : Nat) (imgs : List MultiImageItem)
    (readFile : String → Except String String) (extname : String → String) :
    Except String (List ResolvedImage) × List Effect :=
  match imgs with
  | [] => (.ok [], [])
  | img :: rest =>
    if truthy img.imageData then
      match resolveMultiImages (i + 1) rest readFile extname with
      | (.error e, tr) => (.error e, tr)
      | (.ok rs, tr) => (.ok (⟨img.imageData.getD "", "image/png"⟩ :: rs), tr)
    else if truthy img.imagePath then
      match readFile (img.imagePath.getD "") with
      | .error e => (.error e, [.fsRead (img.imagePath.getD "")])
      | .ok b64 =>
        match resolveMultiImages (i + 1) rest readFile extname with
        | (.error e, tr) =>
          (.error e, .fsRead (img.imagePath.getD "") :: tr)
        | (.ok rs, tr) =>
          (.ok (⟨b64, multiImageMime (extname (img.imagePath.getD ""))⟩ :: rs),
            .fsRead (img.imagePath.getD "") :: tr)
    else
      (.error ("Image " ++ toString (i + 1) ++
        " must have either imageData or imagePath"), [])

/-- Raw edit_image arguments before validation (EditImageArgsSchema,
lines 29-37). -/
structure EditArgsRaw where
  prompt : String
  imageData : Option String
  imagePath : Option String
  outputDir : Option String
  config : Option GenerationConfig

/-- zod parse of EditImageArgsSchema: nested config validation, then the
refine of lines 35-37. -/
def validateEditArgs (a : EditArgsRaw) : Except String EditArgsRaw :=
  if configOk a.config then
    if truthy a.imageData || truthy a.imagePath then .ok a
    else .error "Either imageData or imagePath must be provided"
  else .error "Invalid generation config"

/-- Raw analyze_image arguments (AnalyzeImageArgsSchema, lines 39-46). -/
structure AnalyzeArgsRaw where
  prompt : String
  imageData : Option String
  imagePath : Option String
  config : Option GenerationConfig

/-- zod parse of AnalyzeImageArgsSchema, refine of lines 44-46. -/
def validateAnalyzeArgs (a : AnalyzeArgsRaw) : Except String AnalyzeArgsRaw :=
  if configOk a.config then
    if truthy a.imageData || truthy a.imagePath then .ok a
    else .error "Either imageData or imagePath must be provided"
  else .error "Invalid generation config"

/-- Raw multi_image_edit arguments (MultiImageEditArgsSchema,
lines 48-59). -/
structure MultiImageEditArgsRaw where
  prompt : String
  images : List MultiImageItem
  outputDir : Option String
  config : Option GenerationConfig

/-- zod parse of MultiImageEditArgsSchema: the array min(1) bound and the
nested config first, then the refine of lines 57-59 requiring every
element to carry imageData or imagePath. -/
def validateMultiImageEditArgs (a : MultiImageEditArgsRaw) :
    Except String MultiImageEditArgsRaw :=
  if a.images.isEmpty then .error "Array must contain at least 1 element(s)"
  else if configOk a.config then
    if a.images.all (fun img => truthy img.imageData || truthy img.imagePath) then
      .ok a
    else .error "Each image must have either imageData or imagePath"
  else .error "Invalid generation config"

/-- Raw generate_variations arguments (GenerateVariationsArgsSchema,
lines 77-86), before defaults. -/
structure VariationsArgsRaw where
  imagePath : Option String
  imageData : Option String
  count : Option Nat
  variationStrength : Option VariationStrength
  outputDir : Option String
  config : Option GenerationConfig

/-- Parsed generate_variations arguments with the zod defaults count 3
and strength moderate applied. -/
structure VariationsArgs where
  imagePath : Option String
  imageData : Option String
  count : Nat
  variationStrength : VariationStrength
  outputDir : Option String
  config : Option GenerationConfig
deriving DecidableEq

/-- The count bound of line 80: z.number().min(1).max(5), checked when
the field is present. -/
def countOk : Option Nat → Bool
  | some n => decide (1 ≤ n) && decide (n ≤ 5)
  | none => true

/-- zod parse of GenerateVariationsArgsSchema (lines 77-86): field bounds
and the nested config first, then the refine of lines 84-86 requiring
imageData or imagePath, then the defaults of lines 80-81. -/
def validateVariationsArgs (a : VariationsArgsRaw) :
    Except String VariationsArgs :=
  if countOk a.count && configOk a.config then
    if truthy a.imageData || truthy a.imagePath then
      .ok ⟨a.imagePath, a.imageData, a.count.getD 3,
        a.variationStrength.getD .moderate, a.outputDir, a.config⟩
    else .error "Either imageData or imagePath must be provided"
  else .error "Invalid arguments"

/-- The required list advertised for generate_variations in the
ListTools response (line 321): no field is required there. -/
def variationsAdvertisedRequired : List String := []

/-- handleEditImage (lines 484-590) with its side effects recorded in
program order: parse, resolve the input image, call the model, scan the
response, then mkdir and write.  callModel stands for the single
model.generateContent call; ts for the timestamp string. -/
def handleEditImage (a : EditArgsRaw) (readFile : String → Except String String)
    (extname : String → String) (callModel : CallResult) (ts : String) :
    Except String ToolResult × List Effect :=
  match validateEditArgs a with
  | .error e => (.error e, [])
  | .ok v =>
    match resolveImage editImageMime v.imageData v.imagePath readFile extname with
    | (.error e, tr) => (.error e, tr)
    | (.ok _, tr) =>
      match callModel with
      | .err m => (.error m, tr ++ [.netCall])
      | .ok resp =>
        match resp.candidates with
        | none => (.error "No edited image was generated", tr ++ [.netCall])
        | some [] => (.error "No edited image was generated", tr ++ [.netCall])
        | some (c :: _) =>
          match c.parts with
          | none => (.error "No content parts in the response", tr ++ [.netCall])
          | some [] => (.error "No content parts in the response", tr ++ [.netCall])
          | some parts =>
            match parts.find? hasInline with
            | none => (.error "No image data found in the response", tr ++ [.netCall])
            | some part =>
              let dir := v.outputDir.getD "."
              let fp := pathJoin dir (editedImageFilename ts (partMime part))
              (.ok ⟨[⟨"Image edited successfully and saved to: " ++ fp⟩], false⟩,
                tr ++ [.netCall, .fsMkdir dir, .fsWrite fp])

/-- handleAnalyzeImage (lines 592-666) with its side effects: parse,
resolve, call the plain-text model, return its text. -/
def handleAnalyzeImage (a : AnalyzeArgsRaw)
    (readFile : String → Except String String) (extname : String → String)
    (callModel : CallResult) : Except String ToolResult × List Effect :=
  match validateAnalyzeArgs a with
  | .error e => (.error e, [])
  | .ok v =>
    match resolveImage analyzeImageMime v.imageData v.imagePath readFile extname with
    | (.error e, tr) => (.error e, tr)
    | (.ok _, tr) =>
      match callModel with
      | .err m => (.error m, tr ++ [.netCall])
      | .ok resp =>
        match resp.text with
        | none => (.error "No response text generated", tr ++ [.netCall])
        | some t => (.ok ⟨[⟨t⟩], false⟩, tr ++ [.netCall])

/-- handleMultiImageEdit (lines 668-779) with its side effects: parse,
resolve every element in order, call the model, scan the response, then
mkdir and write. -/
def handleMultiImageEdit (a : MultiImageEditArgsRaw)
    (readFile : String → Except String String) (extname : String → String)
    (callModel : CallResult) (ts : String) :
    Except String ToolResult × List Effect :=
  match validateMultiImageEditArgs a with
  | .error e => (.error e, [])
  | .ok v =>
    match resolveMultiImages 0 v.images readFile extname with
    | (.error e, tr) => (.error e, tr)
    | (.ok _, tr) =>
      match callModel with
      | .err m => (.error m, tr ++ [.netCall])
      | .ok resp =>
        match resp.candidates with
        | none => (.error "No multi-image result was generated", tr ++ [.netCall])
        | some [] => (.error "No multi-image result was generated", tr ++ [.netCall])
        | some (c :: _) =>
          match c.parts with
          | none => (.error "No content parts in the response", tr ++ [.netCall])
          | some [] => (.error "No content parts in the response", tr ++ [.netCall])
          | some parts =>
            match parts.find? hasInline with
            | none => (.error "No image data found in the response", tr ++ [.netCall])
            | some part =>
              let dir := v.outputDir.getD "."
              let fp := pathJoin dir (multiImageResultFilename ts (partMime part))
              (.ok ⟨[⟨"Multi-image processing completed successfully and saved to: " ++ fp⟩], false⟩,
                tr ++ [.netCall, .fsMkdir dir, .fsWrite fp])

/-- One iteration of the handleGenerateVariations loop (lines 928-951):
the call is made; a thrown error is caught, logged and skipped
(lines 948-950); a response without a savable image is skipped silently;
a savable image yields mkdir, write and the saved path. -/
def variationAttempt (res : CallResult) (outputDir ts : String) (i : Nat) :
    Option String × List Effect :=
  match res with
  | .err _ => (none, [.netCall])
  | .ok r =>
    match candidatesParts r with
    | none => (none, [.netCall])
    | some parts =>
      match parts.find? hasInline with
      | none => (none, [.netCall])
      | some _ =>
        let fp := pathJoin outputDir (variationFilename i ts)
        (some fp, [.netCall, .fsMkdir outputDir, .fsWrite fp])

/-- The strictly sequential variation loop (lines 926-951): saved paths
are collected in index order, effects in program order. -/
def variationsLoop (count : Nat) (call : Nat → CallResult)
    (outputDir : String) (ts : Nat → String) : List String × List Effect :=
  (List.range count).foldl
    (fun acc i =>
      let pr := variationAttempt (call i) outputDir (ts i) i
      (acc.1 ++ pr.1.toList, acc.2 ++ pr.2))
    ([], [])

/-- The success text of handleGenerateVariations (line 957). -/
def variationsSuccessText (results : List String) : String :=
  "Generated " ++ toString results.length ++ " variations:\n" ++
    String.intercalate "\n" (results.map (fun f => "- " ++ f))

/-- handleGenerateVariations (lines 877-961) with its side effects:
parse, resolve the base image (with the variations MIME rule), run the
loop, return the success text.  call is the per-index model call, ts the
per-index timestamp. -/
def handleGenerateVariations (a : VariationsArgsRaw)
    (readFile : String → Except String String) (extname : String → String)
    (call : Nat → CallResult) (ts : Nat → String) :
    Except String ToolResult × List Effect :=
  match validateVariationsArgs a with
  | .error e => (.error e, [])
  | .ok v =>
    match resolveImage variationsMime v.imageData v.imagePath readFile extname with
    | (.error e, tr) => (.error e, tr)
    | (.ok _, tr) =>
      let dir := v.outputDir.getD "."
      let lp := variationsLoop v.count call dir ts
      (.ok ⟨[⟨variationsSuccessText lp.1⟩], false⟩, tr ++ lp.2)

/-- Batch outcome record (lines 819, 822, 824, 848, 850, 854-858). -/
structure BatchOutcome where
  success : Bool
  prompt : String
  filepath : Option String
  error : Option String
deriving DecidableEq

/-- One iteration of the sequential handleBatchGenerate loop
(lines 831-860).  Returns none when the loop body pushes no outcome:
when the call resolves but candidates?.[0]?.content.parts is undefined,
neither push site runs (the if at line 838 has no outer else). -/
def batchSeqOutcome (prompt outputDir ts : String) (i : Nat)
    (res : CallResult) : Option BatchOutcome :=
  match res with
  | .err m => some ⟨false, prompt, none, some m⟩
  | .ok r =>
    match candidatesParts r with
    | none => none
    | some parts =>
      match parts.find? hasInline with
      | some _ =>
        some ⟨true, prompt, some (pathJoin outputDir (batchFilename i ts)), none⟩
      | none => some ⟨false, prompt, none, some "No image generated"⟩

/-- The sequential branch of handleBatchGenerate (lines 829-861):
iterations run in input order and each pushes its outcome, or nothing,
onto results. -/
def batchSequentialResults (prompts : List String) (outputDir : String)
    (ts : Nat → String) (call : Nat → CallResult) : List BatchOutcome :=
  (List.range prompts.length).filterMap
    (fun i => batchSeqOutcome (prompts.getD i "") outputDir (ts i) i (call i))

/-- One mapped promise of the parallel handleBatchGenerate branch
(lines 802-826): every path returns an outcome. -/
def batchParOutcome (prompt outputDir ts : String) (i : Nat)
    (res : CallResult) : BatchOutcome :=
  match res with
  | .err m => ⟨false, prompt, none, some m⟩
  | .ok r =>
    match candidatesParts r with
    | none => ⟨false, prompt, none, some "No image generated"⟩
    | some parts =>
      match parts.find? hasInline with
      | some _ =>
        ⟨true, prompt, some (pathJoin outputDir (batchFilename i ts)), none⟩
      | none => ⟨false, prompt, none, some "No image generated"⟩

/-- The parallel branch of handleBatchGenerate (lines 800-828):
prompts.map builds one promise per index and Promise.all returns their
values in index order regardless of completion order, so the collected
results are the per-index outcomes in input order. -/
def batchParallelResults (prompts : List String) (outputDir : String)
    (ts : Nat → String) (call : Nat → CallResult) : List BatchOutcome :=
  (List.range prompts.length).map
    (fun i => batchParOutcome (prompts.getD i "") outputDir (ts i) i (call i))

/-- The eight tool names of the CallTool switch (lines 383-399). -/
def toolNames : List String :=
  ["generate_image", "edit_image", "analyze_image", "multi_image_edit",
   "batch_generate", "generate_variations", "generate_with_template",
   "compare_images"]

/-- The CallTool dispatcher (lines 379-415): the switch routes a known
name to its handler and throws Unknown tool otherwise, all inside a try
whose catch converts any thrown error into a structured result with
isError true and a single text block.  handlers stands for the routed
handler bodies; the function is total, so no exception reaches the
transport. -/
def dispatch (handlers : String → HandlerOutcome) (name : String) : ToolResult :=
  let body :=
    if name ∈ toolNames then handlers name
    else HandlerOutcome.raise ("Unknown tool: " ++ name)
  match body with
  | .ok r => r
  | .raise m => ⟨[⟨"Error: " ++ m⟩], true⟩

/-- The success payload of handleGenerateImage (lines 474-481): one text
block naming the saved path, no isError key. -/
def generateImageSuccess (filepath : String) : ToolResult :=
  ⟨[⟨"Image generated successfully and saved to: " ++ filepath⟩], false⟩

/- Helper lemmas. -/

theorem mimeSwitch_eq_specMimeMap (s : String) : mimeSwitch s = specMimeMap s := by
  by_cases h1 : s = ".png"
  · subst h1; decide
  by_cases h2 : s = ".jpg"
  · subst h2; decide
  by_cases h3 : s = ".jpeg"
  · subst h3; decide
  by_cases h4 : s = ".gif"
  · subst h4; decide
  by_cases h5 : s = ".webp"
  · subst h5; decide
  simp [mimeSwitch, specMimeMap, h1, h2, h3, h4, h5]

theorem generateImageExtension_eq_spec (m : String) :
    generateImageExtension m = specExtensionFromMime m := by
  by_cases hp : m = "image/png"
  · subst hp; decide
  by_cases hj : m = "image/jpeg"
  · subst hj; decide
  simp [generateImageExtension, specExtensionFromMime, hp, hj]

theorem editImageExtension_eq_spec (m : String) :
    editImageExtension m = specExtensionFromMime m := by
  by_cases hp : m = "image/png"
  · subst hp; decide
  by_cases hj : m = "image/jpeg"
  · subst hj; decide
  simp [editImageExtension, specExtensionFromMime, hp, hj]

theorem multiImageExtension_eq_spec (m : String) :
    multiImageExtension m = specExtensionFromMime m := by
  by_cases hp : m = "image/png"
  · subst hp; decide
  by_cases hj : m = "image/jpeg"
  · subst hj; decide
  simp [multiImageExtension, specExtensionFromMime, hp, hj]

theorem variationAttempt_of_saves (res : CallResult) (od ts : String) (i : Nat)
    (h : savesImage res = true) :
    variationAttempt res od ts i =
      (some (pathJoin od (variationFilename i ts)),
        [.netCall, .fsMkdir od, .fsWrite (pathJoin od (variationFilename i ts))]) := by
  cases res with
  | err m => simp [savesImage] at h
  | ok r =>
    simp only [savesImage] at h
    cases hc : candidatesParts r with
    | none => rw [hc] at h; simp at h
    | some parts =>
      rw [hc] at h
      change (parts.find? hasInline).isSome = true at h
      cases hf : parts.find? hasInline with
      | none => rw [hf] at h; simp at h
      | some p => simp [variationAttempt, hc, hf]

theorem variationAttempt_of_err (m : String) (od ts : String) (i : Nat) :
    variationAttempt (.err m) od ts i = (none, [.netCall]) := rfl

/- Claim theorems. -/

/-- C2, counterexample: the claim fails as stated.  With a response MIME
type of exactly image/jpeg, the batch filename still ends in ".png": the
batch branch hardcodes the extension (line 813) instead of applying the
MIME rule, so the saved path is not the one the claim mandates. -/
theorem batch_filename_ignores_response_mime :
    batchFilename 0 "T" ≠ "batch-1-" ++ "T" ++ specExtensionFromMime "image/jpeg" := by
  decide

/-- C2, amended: the extension rule (jpg exactly for image/jpeg, png for
everything else) governs the generated-image, edited-image and
multi-image-result filenames; the batch, variation and template
filenames use the literal extension ".png" whatever the response MIME
type is. -/
theorem filename_extension_rules (ts mime templateName : String) (i : Nat) :
    generatedImageFilename ts mime =
      "generated-image-" ++ ts ++ specExtensionFromMime mime ∧
    editedImageFilename ts mime =
      "edited-image-" ++ ts ++ specExtensionFromMime mime ∧
    multiImageResultFilename ts mime =
      "multi-image-result-" ++ ts ++ specExtensionFromMime mime ∧
    batchFilename i ts = "batch-" ++ toString (i + 1) ++ "-" ++ ts ++ ".png" ∧
    variationFilename i ts = "variation-" ++ toString (i + 1) ++ "-" ++ ts ++ ".png" ∧
    templateFilename templateName ts = templateName ++ "-" ++ ts ++ ".png" :=
  ⟨by rw [generatedImageFilename, generateImageExtension_eq_spec],
   by rw [editedImageFilename, editImageExtension_eq_spec],
   by rw [multiImageResultFilename, multiImageExtension_eq_spec],
   rfl, rfl, rfl⟩

/-- C3, counterexample: the claim fails as stated.  generate_variations
resolves an image from a filesystem path, yet a ".gif" path is declared
image/png (lines 894-895), not the image/gif the exact mapping gives. -/
theorem variations_mime_gif_mismatch :
    variationsMime ".gif" = "image/png" ∧
    specMimeFromExtension ".gif" = "image/gif" ∧
    variationsMime ".gif" ≠ specMimeFromExtension ".gif" := by
  refine ⟨by decide, by decide, by decide⟩

/-- C3, amended: edit_image, analyze_image and multi_image_edit derive
the declared MIME type from the lowercased path extension by the exact
claimed mapping; generate_variations recognizes only .jpg and .jpeg
(so it can never declare image/gif or image/webp), and compare_images
always declares image/png without consulting the path. -/
theorem mime_from_extension_rules (extname : String) :
    editImageMime extname = specMimeFromExtension extname ∧
    analyzeImageMime extname = specMimeFromExtension extname ∧
    multiImageMime extname = specMimeFromExtension extname ∧
    variationsMime extname ≠ "image/gif" ∧
    variationsMime extname ≠ "image/webp" ∧
    compareImagesMime = "image/png" := by
  refine ⟨mimeSwitch_eq_specMimeMap (lowerStr extname),
    mimeSwitch_eq_specMimeMap (lowerStr extname),
    mimeSwitch_eq_specMimeMap (lowerStr extname), ?_, ?_, rfl⟩ <;>
  · unfold variationsMime
    split <;> decide

/-- C7: the outbound sampling temperature of generate_variations is the
strength default (subtle 0.3, moderate 0.7, strong 1.2) exactly when the
caller's config did not itself specify a temperature, including when no
config was supplied; a caller-specified temperature is forwarded
unchanged. -/
theorem variations_temperature_rule (c : GenerationConfig)
    (s : VariationStrength) (t : ℚ) :
    variationsOutTemperature none s = strengthTemperature s ∧
    (c.temperature = none →
      variationsOutTemperature (some c) s = strengthTemperature s) ∧
    (c.temperature = some t → variationsOutTemperature (some c) s = t) ∧
    strengthTemperature .subtle = 3/10 ∧
    strengthTemperature .moderate = 7/10 ∧
    strengthTemperature .strong = 12/10 := by
  refine ⟨rfl, ?_, ?_, rfl, rfl, rfl⟩ <;>
  · intro h
    simp [variationsOutTemperature, h]

/-- Witness for C7 at concrete configs: a supplied temperature 3/2 is
forwarded; an absent temperature falls back to the strong default. -/
theorem variations_temperature_rule_witness :
    variationsOutTemperature (some ⟨some (3/2), none, none, none⟩)
      VariationStrength.subtle = 3/2 ∧
    variationsOutTemperature (some ⟨none, some (1/2), none, none⟩)
      VariationStrength.strong = 12/10 :=
  ⟨(variations_temperature_rule ⟨some (3/2), none, none, none⟩
      VariationStrength.subtle (3/2)).2.2.1 rfl,
   (variations_temperature_rule ⟨none, some (1/2), none, none⟩
      VariationStrength.strong 0).2.1 rfl⟩

/-- C9, counterexample: the claim fails as stated.  A config whose
maxOutputTokens is -5 is accepted by the validator (line 20 places no
constraint on the field), though the claim requires rejection of any
non-positive value. -/
theorem config_accepts_negative_max_tokens :
    validConfig ⟨none, none, none, some (-5)⟩ = true ∧
    specValidConfig ⟨none, none, none, some (-5)⟩ = false := by
  refine ⟨by decide, by decide⟩

/-- C9, amended: the validator accepts a supplied GenerationConfig
exactly when every present field among temperature, topP and topK
satisfies its range (temperature 0..2, topP 0..1, topK 1..40);
maxOutputTokens is unconstrained. -/
theorem config_validation_rule (c : GenerationConfig) :
    validConfig c = true ↔
      ((∀ t ∈ c.temperature, 0 ≤ t ∧ t ≤ 2) ∧
       (∀ p ∈ c.topP, 0 ≤ p ∧ p ≤ 1) ∧
       (∀ k ∈ c.topK, 1 ≤ k ∧ k ≤ 40)) := by
  obtain ⟨t, p, k, m⟩ := c
  cases t <;> cases p <;> cases k <;>
    simp [validConfig, Option.mem_def, and_assoc]

/-- C10: a tool call whose name is none of the eight defined identifiers
is answered with the structured payload isError true and the single text
block naming the unknown tool; the dispatcher is a total function, so
nothing propagates to the transport. -/
theorem unknown_tool_structured_error (handlers : String → HandlerOutcome)
    (name : String) (h : name ∉ toolNames) :
    dispatch handlers name =
      ⟨[⟨"Error: Unknown tool: " ++ name⟩], true⟩ ∧
    (dispatch handlers name).isError = true := by
  constructor
  · have e : ("Error: " ++ ("Unknown tool: " ++ name)) =
        "Error: Unknown tool: " ++ name := by
      rw [← String.append_assoc]; rfl
    simp [dispatch, h, e]
  · simp [dispatch, h]

/-- Witness for C10 at the concrete unknown name "resize_image". -/
theorem unknown_tool_structured_error_witness :
    dispatch (fun _ => HandlerOutcome.ok ⟨[], false⟩) "resize_image" =
      ⟨[⟨"Error: Unknown tool: resize_image"⟩], true⟩ :=
  (unknown_tool_structured_error (fun _ => HandlerOutcome.ok ⟨[], false⟩)
    "resize_image" (by decide)).1

/-- C1: the claim fails on the code.  In sequential mode a prompt whose
external call resolves to a response with no candidates produces no
BatchOutcome at all: the if at line 838 has no outer else, so neither
push site runs and the batch returns zero outcomes for one prompt.  The
parallel branch returns the expected failure outcome on the same input,
matching the one-outcome-per-item intent. -/
theorem batch_sequential_drops_unusable_item :
    batchSequentialResults ["A"] "." (fun _ => "T")
      (fun _ => CallResult.ok ⟨none, none⟩) = [] ∧
    (batchSequentialResults ["A"] "." (fun _ => "T")
      (fun _ => CallResult.ok ⟨none, none⟩)).length = 0 ∧
    batchParallelResults ["A"] "." (fun _ => "T")
      (fun _ => CallResult.ok ⟨none, none⟩) =
      [⟨false, "A", none, some "No image generated"⟩] :=
  ⟨rfl, rfl, rfl⟩

/-- C4: any error a routed handler raises is caught at the dispatcher
boundary and converted to a structured result with isError true and a
single text block carrying the message; a handler success payload is
returned verbatim, and the generate_image success payload is one text
block containing the saved file path.  dispatch is a total function, so
no exception reaches the transport. -/
theorem dispatcher_error_boundary (handlers : String → HandlerOutcome)
    (name msg fp : String) (r : ToolResult) (hmem : name ∈ toolNames) :
    (handlers name = .raise msg →
      dispatch handlers name = ⟨[⟨"Error: " ++ msg⟩], true⟩) ∧
    (handlers name = .ok r → dispatch handlers name = r) ∧
    (generateImageSuccess fp).isError = false ∧
    (∃ s, (generateImageSuccess fp).content = [⟨s ++ fp⟩]) := by
  refine ⟨?_, ?_, rfl, ⟨"Image generated successfully and saved to: ", rfl⟩⟩ <;>
  · intro h
    simp [dispatch, hmem, h]

/-- Witness for C4: a generate_image handler throwing "boom" yields the
structured error payload. -/
theorem dispatcher_error_boundary_witness :
    dispatch (fun _ => HandlerOutcome.raise "boom") "generate_image" =
      ⟨[⟨"Error: boom"⟩], true⟩ :=
  (dispatcher_error_boundary (fun _ => HandlerOutcome.raise "boom")
    "generate_image" "boom" "f" ⟨[], false⟩ (by decide)).1 rfl

/-- C5: a call to edit_image, analyze_image or generate_variations
supplying neither imageData nor imagePath, and a call to
multi_image_edit one of whose array elements supplies neither, fails
validation and performs no filesystem read, directory creation, file
write or network call: the handler returns an error with an empty
effect trace. -/
theorem validation_before_side_effects (p dsc : String)
    (od : Option String) (cfg : Option GenerationConfig)
    (rf : String → Except String String) (ex : String → String)
    (cm : CallResult) (call : Nat → CallResult) (ts : String)
    (tsv : Nat → String) (cnt : Option Nat) (st : Option VariationStrength)
    (pre post : List MultiImageItem) :
    ((handleEditImage ⟨p, none, none, od, cfg⟩ rf ex cm ts).2 = [] ∧
      ∃ e, (handleEditImage ⟨p, none, none, od, cfg⟩ rf ex cm ts).1 = .error e) ∧
    ((handleAnalyzeImage ⟨p, none, none, cfg⟩ rf ex cm).2 = [] ∧
      ∃ e, (handleAnalyzeImage ⟨p, none, none, cfg⟩ rf ex cm).1 = .error e) ∧
    ((handleGenerateVariations ⟨none, none, cnt, st, od, cfg⟩ rf ex call tsv).2 = [] ∧
      ∃ e, (handleGenerateVariations ⟨none, none, cnt, st, od, cfg⟩ rf ex call tsv).1 = .error e) ∧
    ((handleMultiImageEdit ⟨p, pre ++ ⟨none, none, some dsc⟩ :: post, od, cfg⟩ rf ex cm ts).2 = [] ∧
      ∃ e, (handleMultiImageEdit ⟨p, pre ++ ⟨none, none, some dsc⟩ :: post, od, cfg⟩ rf ex cm ts).1 = .error e) := by
  refine ⟨?_, ?_, ?_, ?_⟩
  · cases hc : configOk cfg <;>
      simp [handleEditImage, validateEditArgs, hc, truthy]
  · cases hc : configOk cfg <;>
      simp [handleAnalyzeImage, validateAnalyzeArgs, hc, truthy]
  · cases h : countOk cnt && configOk cfg <;>
      simp [handleGenerateVariations, validateVariationsArgs, h, truthy]
  · have hne : ((pre ++ (⟨none, none, some dsc⟩ : MultiImageItem) :: post)).isEmpty = false := by
      cases pre <;> rfl
    cases hc : configOk cfg <;>
      simp [handleMultiImageEdit, validateMultiImageEditArgs, hne, hc, truthy,
        List.all_append, List.all_cons]

/-- C6: the variation attempts run strictly sequentially and a thrown
attempt is caught and skipped: with count 3 and the second call
throwing, the loop still saves the first and third variation paths in
input order, and the handler returns a success payload (never an error)
whose text lists exactly those two paths.  The handler is exercised with
inline image data, so count takes its zod default 3. -/
theorem variations_skip_failed_attempt (call : Nat → CallResult)
    (ts : Nat → String) (od m : String)
    (rf : String → Except String String) (ex : String → String)
    (h0 : savesImage (call 0) = true) (h1 : call 1 = .err m)
    (h2 : savesImage (call 2) = true) :
    (variationsLoop 3 call od ts).1 =
      [pathJoin od (variationFilename 0 (ts 0)),
       pathJoin od (variationFilename 2 (ts 2))] ∧
    (handleGenerateVariations ⟨none, some "D", none, none, none, none⟩
        rf ex call ts).1 =
      .ok ⟨[⟨variationsSuccessText
        [pathJoin "." (variationFilename 0 (ts 0)),
         pathJoin "." (variationFilename 2 (ts 2))]⟩], false⟩ := by
  have l1 : ∀ dir : String, (variationsLoop 3 call dir ts).1 =
      [pathJoin dir (variationFilename 0 (ts 0)),
       pathJoin dir (variationFilename 2 (ts 2))] := by
    intro dir
    have e0 := variationAttempt_of_saves (call 0) dir (ts 0) 0 h0
    have e2 := variationAttempt_of_saves (call 2) dir (ts 2) 2 h2
    have e1 : variationAttempt (call 1) dir (ts 1) 1 = (none, [.netCall]) := by
      rw [h1]; rfl
    have hr : List.range 3 = [0, 1, 2] := rfl
    rw [variationsLoop, hr]
    simp [List.foldl, e0, e1, e2]
  have hres : handleGenerateVariations ⟨none, some "D", none, none, none, none⟩
      rf ex call ts =
      (.ok ⟨[⟨variationsSuccessText (variationsLoop 3 call "." ts).1⟩], false⟩,
        [] ++ (variationsLoop 3 call "." ts).2) := rfl
  refine ⟨l1 od, ?_⟩
  rw [hres]
  rw [l1 "."]

/-- Witness for C6 with a concrete call oracle whose second call throws
and whose other calls return an image-bearing response. -/
theorem variations_skip_failed_attempt_witness :
    (variationsLoop 3
      (fun i => if i = 1 then CallResult.err "boom"
        else CallResult.ok ⟨some [⟨some [Part.inlineData "d" "image/png"]⟩], none⟩)
      "out" (fun _ => "T")).1 =
      [pathJoin "out" (variationFilename 0 "T"),
       pathJoin "out" (variationFilename 2 "T")] ∧
    (handleGenerateVariations ⟨none, some "D", none, none, none, none⟩
        (fun _ => Except.ok "") (fun _ => "")
        (fun i => if i = 1 then CallResult.err "boom"
          else CallResult.ok ⟨some [⟨some [Part.inlineData "d" "image/png"]⟩], none⟩)
        (fun _ => "T")).1 =
      .ok ⟨[⟨variationsSuccessText
        [pathJoin "." (variationFilename 0 "T"),
         pathJoin "." (variationFilename 2 "T")]⟩], false⟩ :=
  variations_skip_failed_attempt
    (fun i => if i = 1 then CallResult.err "boom"
      else CallResult.ok ⟨some [⟨some [Part.inlineData "d" "image/png"]⟩], none⟩)
    (fun _ => "T") "out" "boom" (fun _ => Except.ok "") (fun _ => "")
    rfl rfl rfl

/-- C8, counterexample: the claim fails as stated.  A generate_variations
call supplying neither imageData nor imagePath does not pass argument
validation: the refine at lines 84-86 rejects it at parse time with the
very message the claim attributes to the runtime check. -/
theorem variations_validation_rejects_missing_image :
    validateVariationsArgs ⟨none, none, none, none, none, none⟩ =
      .error "Either imageData or imagePath must be provided" := rfl

/-- C8, amended: the advertised MCP input schema for generate_variations
lists no required field, but the zod validation schema does enforce the
image reference through its refine, so a call supplying neither
imageData nor imagePath fails at validation; every argument record that
passes validation carries one of the two, so the handler's internal
runtime check is unreachable for validated arguments. -/
theorem variations_schema_level_requirement (a b : VariationsArgsRaw)
    (v : VariationsArgs) (h1 : truthy a.imageData = false)
    (h2 : truthy a.imagePath = false) :
    variationsAdvertisedRequired = [] ∧
    (∃ e, validateVariationsArgs a = .error e) ∧
    (validateVariationsArgs b = .ok v →
      (truthy v.imageData || truthy v.imagePath) = true) := by
  refine ⟨rfl, ?_, ?_⟩
  · unfold validateVariationsArgs
    cases h : countOk a.count && configOk a.config
    · simp
    · simp [h1, h2]
  · intro hb
    unfold validateVariationsArgs at hb
    split at hb
    · split at hb
      · cases hb
        assumption
      · cases hb
    · cases hb

/-- Witness for C8 at the all-absent argument record. -/
theorem variations_schema_level_requirement_witness :
    variationsAdvertisedRequired = ([] : List String) ∧
    (∃ e, validateVariationsArgs ⟨none, none, none, none, none, none⟩ = .error e) :=
  ⟨(variations_schema_level_requirement ⟨none, none, none, none, none, none⟩
      ⟨none, none, none, none, none, none⟩ ⟨none, none, 3, .moderate, none, none⟩
      rfl rfl).1,
   (variations_schema_level_requirement ⟨none, none, none, none, none, none⟩
      ⟨none, none, none, none, none, none⟩ ⟨none, none, 3, .moderate, none, none⟩
      rfl rfl).2.1⟩

end NanoBanana
